import Mathlib

/-!
Shallow embedding of the PrintEasy order-admin PDF generation engine.

The repository contains three variants of the generator module:
* `src/src/utils/pdfGenerator.js` — the lighter single-flowing-page pipeline
  (called V1 below);
* `src/unnamed/part_002` (first document) — the richer three-page-per-item
  pipeline (called V2 below);
* `src/unnamed/part_001` (second document) — a legacy single-page pipeline
  whose barcode payload still contains the SKU (called Legacy below).

Machine numbers (canvas pixel channels) are `Nat`; layout coordinates
(jsPDF millimetre units) are `ℚ`.  Asynchronous image acquisition is
embedded by passing the outcome of each load explicitly (an oracle),
since the generators await each load before using its value.
-/

namespace PrintEasy

/-! ## Data model (§3 of the spec, fields read by the generators) -/

/-- An order item, with exactly the fields the generator modules read.
Absent fields are `none`; a JS empty string is kept as `some ""` and is
handled by the JS-truthiness helpers below. -/
structure Item where
  imageUrl : Option String := none
  renderedImageUrl : Option String := none
  shirtImageUrl : Option String := none
  sku : Option String := none
  productSku : Option String := none
  quantity : Option Nat := none
  qty : Option Nat := none
  sizeInfo : Option String := none
  variantSize : Option String := none
  name : Option String := none
deriving DecidableEq

/-- An order: identifier plus its item list (the only fields the engine uses). -/
structure Order where
  orderId : String
  items : List Item
deriving DecidableEq

/-- JS truthiness of an optional string: `undefined`/`null` and the empty
string are falsy, every other string is truthy. -/
def truthyStr : Option String → Bool
  | none => false
  | some s => !(s == "")

/-- The JS expression `a || b` on optional strings (used for
`item.imageUrl || item.renderedImageUrl` and for the size fields). -/
def jsOrStr (a b : Option String) : Option String :=
  if truthyStr a then a else b

/-- The JS expression `a || b || d` producing a string with literal
fallback `d` (used for `item.sku || item.productSku || "N/A"` and
`item.name || "Customizable Product"`). -/
def jsStrFallback (a b : Option String) (d : String) : String :=
  match jsOrStr a b with
  | some s => if s = "" then d else s
  | none => d

/-- The JS expression `item.quantity || item.qty || 1` (note that a JS
quantity of `0` is falsy and falls through to the fallback). -/
def jsQuantity (a b : Option Nat) : Nat :=
  match a with
  | some n => if n = 0 then (match b with | some m => if m = 0 then 1 else m | none => 1) else n
  | none => match b with | some m => if m = 0 then 1 else m | none => 1

/-! ## Image acquisition and transform (`loadImageAsBase64` and the safe
loaders; part_002 lines 4-99 and pdfGenerator.js lines 4-71) -/

/-- One RGBA canvas pixel; channels are 8-bit values 0..255. -/
structure Pixel where
  r : Nat
  g : Nat
  b : Nat
  a : Nat
deriving DecidableEq

/-- The fixed dark-pixel threshold (`const threshold = 50`). -/
def threshold : Nat := 50

/-- Whether a pixel is caught by the dark-pixel test
(`r < threshold && g < threshold && b < threshold`). -/
def isDarkPixel (p : Pixel) : Bool :=
  decide (p.r < threshold) && decide (p.g < threshold) && decide (p.b < threshold)

/-- The body of the threshold loop: a dark pixel has its R, G and B
channels set to 255; the alpha channel (`data[i + 3]`) is not written. -/
def thresholdPixel (p : Pixel) : Pixel :=
  if isDarkPixel p then { r := 255, g := 255, b := 255, a := p.a } else p

/-- The full threshold pass over the canvas pixel data
(the `for (let i = 0; i < data.length; i += 4)` loop). -/
def applyThresholdPass (img : List Pixel) : List Pixel :=
  img.map thresholdPixel

/-- Compositing one source pixel over the opaque white canvas produced by
`ctx.fillStyle = "#FFFFFF"; ctx.fillRect(...)` followed by
`ctx.drawImage(img, 0, 0)` (source-over onto an opaque destination).
The resulting alpha is always 255; the colour channels follow the
standard source-over formula with 8-bit rounding by truncation. -/
def compositeOverWhite (p : Pixel) : Pixel :=
  { r := (p.r * p.a + 255 * (255 - p.a)) / 255
    g := (p.g * p.a + 255 * (255 - p.a)) / 255
    b := (p.b * p.a + 255 * (255 - p.a)) / 255
    a := 255 }

/-- The result of `canvas.toDataURL` as the generators consume it: the
encoding format, the quality argument passed, and the pixel data that was
encoded.  Encoding is deterministic in these three components. -/
structure EncodedImage where
  format : String
  quality : ℚ
  pixels : List Pixel
deriving DecidableEq

/-- `loadImageAsBase64` of part_002 (lines 4-68): the decode outcome of
the url is passed explicitly as `src` (`Except.error` embeds the
`img.onerror` path, which rejects).  For a non-PNG target the canvas is
pre-filled opaque white before the draw; for PNG the transparent canvas
leaves the source pixels unchanged.  The threshold pass runs only when
requested, and the output format and quality are the arguments given. -/
def loadImageAsBase64V2 (quality : ℚ) (applyThreshold : Bool) (format : String)
    (src : Except Unit (List Pixel)) : Except Unit EncodedImage :=
  match src with
  | .error e => .error e
  | .ok pixels =>
    let canvas := if format ≠ "png" then pixels.map compositeOverWhite else pixels
    let canvas := if applyThreshold then applyThresholdPass canvas else canvas
    .ok { format := format, quality := quality, pixels := canvas }

/-- `loadImageAsBase64` of pdfGenerator.js (lines 4-51): same transform
but the encoding is always JPEG (so the canvas is always pre-filled
white). -/
def loadImageAsBase64V1 (quality : ℚ) (applyThreshold : Bool)
    (src : Except Unit (List Pixel)) : Except Unit EncodedImage :=
  match src with
  | .error e => .error e
  | .ok pixels =>
    let canvas := pixels.map compositeOverWhite
    let canvas := if applyThreshold then applyThresholdPass canvas else canvas
    .ok { format := "jpeg", quality := quality, pixels := canvas }

/-- `safeLoadCustomImage` of part_002 (lines 81-99): a falsy url yields
`null` at once; otherwise the load runs with quality 1.0, no threshold
pass, PNG output, and any rejection is caught and turned into `null`. -/
def safeLoadCustomImageV2 (url : Option String) (src : Except Unit (List Pixel)) :
    Option EncodedImage :=
  if truthyStr url then (loadImageAsBase64V2 1 false "png" src).toOption else none

/-- `safeLoadCustomImage` of pdfGenerator.js (lines 63-71): quality 0.75,
no threshold pass, JPEG output (that variant of `loadImageAsBase64` only
encodes JPEG); any rejection is caught and turned into `null`. -/
def safeLoadCustomImageV1 (src : Except Unit (List Pixel)) : Option EncodedImage :=
  (loadImageAsBase64V1 (3/4) false src).toOption

/-- `safeLoadImage` of pdfGenerator.js (lines 53-59): the product-image
loader, default quality 0.5 with the threshold pass enabled. -/
def safeLoadImageV1 (quality : ℚ := 1/2) (src : Except Unit (List Pixel)) :
    Option EncodedImage :=
  (loadImageAsBase64V1 quality true src).toOption

/-! ## Size formatting (part_002 `formatSizeForPdf`, lines 101-111) -/

/-- `formatSizeForPdf`: falsy or non-string input gives "N/A"; otherwise
the trimmed string is split on whitespace runs and each token of length
at least 2 gets a dash inserted after its first character. -/
def formatSizeForPdf (sizeInfo : Option String) : String :=
  match sizeInfo with
  | none => "N/A"
  | some s =>
    if s = "" then "N/A"
    else
      let trimmed := s.trim
      if trimmed = "" then "N/A"
      else
        String.intercalate " "
          (((trimmed.split Char.isWhitespace).filter (fun part => part ≠ "")).map
            (fun part =>
              if 2 ≤ part.length then part.take 1 ++ "-" ++ part.drop 1 else part))

/-! ## Page geometry

Both generator modules build an A4 document in millimetre units
(`format: "a4", unit: "mm"` in part_002; the jsPDF defaults, which are
the same, in pdfGenerator.js): 210 x 297. -/

/-- A4 page width in mm (`doc.internal.pageSize.getWidth()`). -/
def pageWidth : ℚ := 210

/-- A4 page height in mm (`doc.internal.pageSize.getHeight()`). -/
def pageHeight : ℚ := 297

/-- The generators use a fixed baseline margin of 20 (`const margin = 20`). -/
def baseMargin : ℚ := 20

/-- `ensureSpace(doc, y, neededHeight, margin = 20)` (pdfGenerator.js
lines 79-86, part_002 lines 119-126).  Returns the cursor to keep using
together with a flag recording whether `doc.addPage()` ran: when
`y + neededHeight` exceeds `pageHeight - margin` a page is added and the
cursor resets to `margin`, otherwise the cursor is returned unchanged. -/
def ensureSpace (y neededHeight : ℚ) (margin : ℚ := 20) : ℚ × Bool :=
  if y + neededHeight > pageHeight - margin then (margin, true) else (y, false)

/-- A computed image placement: final display size and position. -/
structure Placement where
  w : ℚ
  h : ℚ
  x : ℚ
  y : ℚ
deriving DecidableEq

/-- The fill-page ("cover") placement of the visual page (part_002 lines
438-467 and 674-703): the scale is the larger of the two per-axis factors
computed against the page minus a 5mm margin on each side, then the
result is clamped so that neither final dimension exceeds the page
(each clamp recomputing the other dimension from the aspect ratio), and
the image is centred on both axes. -/
def placeFillPage (imgWidth imgHeight : ℚ) : Placement :=
  let minMargin : ℚ := 5
  let availableWidth := pageWidth - minMargin * 2
  let availableHeight := pageHeight - minMargin * 2
  let widthScale := availableWidth / imgWidth
  let heightScale := availableHeight / imgHeight
  let scale := max widthScale heightScale
  let finalWidth := imgWidth * scale
  let finalHeight := imgHeight * scale
  let finalHeight := if finalWidth > pageWidth then (pageWidth / imgWidth) * imgHeight else finalHeight
  let finalWidth := if finalWidth > pageWidth then pageWidth else finalWidth
  let finalWidth := if finalHeight > pageHeight then (pageHeight / imgHeight) * imgWidth else finalWidth
  let finalHeight := if finalHeight > pageHeight then pageHeight else finalHeight
  { w := finalWidth, h := finalHeight
    x := (pageWidth - finalWidth) / 2, y := (pageHeight - finalHeight) / 2 }

/-- The dimension probe of the visual page (part_002 lines 403-436): the
secondary decode either reports the pixel size (`some`) or errors
(`none`), in which case the fixed default 800 x 600 is used; a reported
zero dimension also falls back to the default. -/
def resolveDims (probe : Option (ℚ × ℚ)) : ℚ × ℚ :=
  let d := probe.getD (800, 600)
  if d.1 = 0 ∨ d.2 = 0 then (800, 600) else d

/-! ## The V2 document model

part_002 builds the PDF through jsPDF: the document always starts with
one (empty) page, `doc.addPage()` appends a fresh page and makes it
current, and every draw call appends an element to the current page. -/

/-- An element placed on a page.  Text styling calls (`setFontSize`,
`setFont`, `setDrawColor`, `setLineWidth`) are not modelled; positions
and payloads are. -/
inductive Element where
  | text (content : String) (x y : ℚ)
  | customImage (data : EncodedImage) (x y w h : ℚ)
  | shirtImage (data : EncodedImage) (x y w h : ℚ)
  | hqBarcode (payload : String) (x y w h : ℚ)
  | stdBarcode (payload : String) (x y w h : ℚ)
  | line (x1 y1 x2 y2 : ℚ)
deriving DecidableEq

/-- The jsPDF document state: the already-closed pages in order, and the
current page being drawn on. -/
structure DocState where
  closed : List (List Element)
  cur : List Element
deriving DecidableEq

/-- All pages of the document, in order (the current page last). -/
def DocState.pages (d : DocState) : List (List Element) :=
  d.closed ++ [d.cur]

/-- `doc.addPage()`: close the current page and start a fresh one. -/
def DocState.addPage (d : DocState) : DocState :=
  { closed := d.closed ++ [d.cur], cur := [] }

/-- Draw one element on the current page. -/
def DocState.draw (d : DocState) (e : Element) : DocState :=
  { closed := d.closed, cur := d.cur ++ [e] }

/-- The per-item load outcomes awaited by a generator run, passed
explicitly: the custom-image load result, the dimension probe of the
loaded data, the garment (shirt) image load result, and the properties
jsPDF reports for the shirt image. -/
structure ItemOracle where
  customLoad : Option EncodedImage := none
  probe : Option (ℚ × ℚ) := none
  shirtLoad : Option EncodedImage := none
  shirtProps : ℚ × ℚ := (1, 1)
  customProps : ℚ × ℚ := (800, 600)

/-! ## The V2 three-page-per-item generator (part_002 lines 366-589 and
the per-item body of `generateCombinedPDF`, lines 612-822) -/

/-- The details page content (part_002 lines 549-585): four centred text
lines starting at the top margin and stepping 8, 8, 8, 12 mm, then the
high-fidelity barcode whose payload is the order identifier alone
(`createHighQualityBarcode(order.orderId)`, lines 187-218), embedded at
130 x 52 mm, centred horizontally. -/
def detailsElems (orderId : String) (item : Item) : List Element :=
  [ .text ("Name: " ++ jsStrFallback item.name none "Customizable Product") (pageWidth / 2) 20
  , .text ("SKU: " ++ jsStrFallback item.sku item.productSku "N/A") (pageWidth / 2) 28
  , .text ("Qty: " ++ toString (jsQuantity item.quantity item.qty)) (pageWidth / 2) 36
  , .text ("Size: " ++ formatSizeForPdf (jsOrStr item.sizeInfo item.variantSize)) (pageWidth / 2) 44
  , .hqBarcode orderId ((pageWidth - 130) / 2) 56 130 52 ]

/-- The garment-page placement of the shirt image (part_002 lines
535-546): aspect-preserving, capped at `min 130 (pageHeight * 0.5)` mm
height and the page width minus 8mm margins, drawn at the top margin,
centred horizontally. -/
def shirtPlacement (props : ℚ × ℚ) : Placement :=
  let minMargin : ℚ := 8
  let r := props.1 / props.2
  let maxW := pageWidth - minMargin * 2
  let maxH := min 130 (pageHeight * (1 / 2))
  let shirtW := min maxW (maxH * r)
  let shirtH := shirtW / r
  { w := shirtW, h := shirtH, x := (pageWidth - shirtW) / 2, y := 20 }

/-- One item of the V2 three-page engine (the loop body of part_002
`generatePDF`, lines 379-586; the combined variant runs the same body
with the global processed count in place of the in-order index, lines
615-821).  `pos` is the 0-based position used in the fresh-page test
(`i > 0 || y > margin` resp. `processedItems > 1 || y > margin`).
Stage 1 adds the visual page only when the custom/rendered url is
truthy; stage 2 always adds a page and draws the shirt image on it only
when present; stage 3 always adds the details page. -/
def processItemV2 (orderId : String) (pos : Nat) (item : Item) (o : ItemOracle)
    (st : DocState × ℚ) : DocState × ℚ :=
  let d := st.1
  let y := st.2
  let imageUrl := jsOrStr item.imageUrl item.renderedImageUrl
  let dy :=
    if truthyStr imageUrl then
      let d := if 0 < pos ∨ baseMargin < y then d.addPage else d
      match o.customLoad with
      | some data =>
        let dims := resolveDims o.probe
        let p := placeFillPage dims.1 dims.2
        (d.draw (.customImage data p.x p.y p.w p.h), baseMargin)
      | none => (d, baseMargin)
    else (d, y)
  let d := dy.1.addPage
  let d :=
    if truthyStr item.shirtImageUrl then
      match o.shirtLoad with
      | some data =>
        let p := shirtPlacement o.shirtProps
        d.draw (.shirtImage data p.x p.y p.w p.h)
      | none => d
    else d
  let d := d.addPage
  (List.foldl DocState.draw d (detailsElems orderId item), 56)

/-- The V2 single-order generator `generatePDF` (part_002 lines
367-589): fold the item steps over the item list with the in-order
0-based index as `pos`, starting from the fresh one-page document with
the cursor at the top margin.  The per-item load outcomes are indexed by
item position. -/
def processItemsV2 (orderId : String) (o : Nat → ItemOracle) (i : Nat)
    (items : List Item) (st : DocState × ℚ) : DocState × ℚ :=
  match items with
  | [] => st
  | item :: rest => processItemsV2 orderId o (i + 1) rest (processItemV2 orderId i item (o i) st)

/-- Run `generatePDF` of part_002 on an order, producing the final
document state and cursor. -/
def generatePDFV2 (order : Order) (o : Nat → ItemOracle) : DocState × ℚ :=
  processItemsV2 order.orderId o 0 order.items ({ closed := [], cur := [] }, baseMargin)

/-- State threaded through a combined (multi-order) V2 run: document,
cursor, the running `processedItems` counter, and the progress pairs
passed to the callback so far, in order. -/
structure CombState where
  doc : DocState
  y : ℚ
  processed : Nat
  events : List (Nat × Nat)
deriving DecidableEq

/-- One item of `generateCombinedPDF` (part_002 lines 615-821):
increment `processedItems`, report `(processedItems, totalItems)`, then
run the same three-page body with `processedItems > 1` as the fresh-page
test (equivalently, position `processedItems - 1 > 0`). -/
def combinedStepV2 (total : Nat) (o : Nat → ItemOracle) (orderId : String)
    (st : CombState) (item : Item) : CombState :=
  let p := st.processed + 1
  let dy := processItemV2 orderId (p - 1) item (o st.processed) (st.doc, st.y)
  { doc := dy.1, y := dy.2, processed := p, events := st.events ++ [(p, total)] }

/-- The order loop body of `generateCombinedPDF` V2 (lines 612-822): the
items of one order, folded in order.  This variant draws no order
separator. -/
def processOrderV2 (total : Nat) (o : Nat → ItemOracle) (st : CombState)
    (ord : Order) : CombState :=
  ord.items.foldl (combinedStepV2 total o ord.orderId) st

/-- `generateCombinedPDF` of part_002 (lines 592-827): `totalItems` is
the sum of the item counts computed up front, the processed counter
starts at 0, and the orders are folded in order. -/
def generateCombinedPDFV2 (orders : List Order) (o : Nat → ItemOracle) : CombState :=
  let total := (orders.map (fun ord => ord.items.length)).sum
  orders.foldl (processOrderV2 total o)
    { doc := { closed := [], cur := [] }, y := baseMargin, processed := 0, events := [] }

/-! ## The V1 single-flowing-page generator (pdfGenerator.js)

V1 stacks header text, full-width image, barcode and separator on a
flowing page, calling `ensureSpace` before each block.  The model records
every placement together with the cursor value immediately after that
placement (for `doc.text` and `doc.line` the cursor is unchanged by the
placement itself; for the image and barcode the code advances the cursor
by the returned height as part of the placement expression). -/

/-- One placed block of the V1 layout, tagged with the cursor value
immediately after the placement. -/
inductive V1Placement where
  | header (content : String) (yAfter : ℚ)
  | image (data : EncodedImage) (yAfter : ℚ)
  | barcode (payload : String) (yAfter : ℚ)
  | separator (yAfter : ℚ)
  | orderSeparator (yAfter : ℚ)
deriving DecidableEq

/-- The cursor value immediately after a placement. -/
def V1Placement.yAfter : V1Placement → ℚ
  | .header _ y => y
  | .image _ y => y
  | .barcode _ y => y
  | .separator y => y
  | .orderSeparator y => y

/-- One item of the V1 flow (the loop body shared by pdfGenerator.js
`generatePDF` lines 159-205 and `generateCombinedPDF` lines 241-288):
header (`ensureSpace` 30, text, advance 15), the optional full-width
custom image (`ensureSpace` sized to the image, place, advance by the
image height then 10), the standard barcode with payload
`orderId-(i+1)` (`ensureSpace` 60, place height 35, advance 15), and the
separator rule (`ensureSpace` 15, line, advance 15).  Returns the
emitted placements, the final cursor, and the number of page breaks
taken.  The item record itself is only read for the image url handed to
`safeLoadCustomImage`, whose awaited outcome is `o.customLoad`; the
image properties jsPDF reports are `o.customProps`. -/
def v1ItemRun (orderId : String) (n i : Nat) (o : ItemOracle) (y0 : ℚ) :
    List V1Placement × ℚ × Nat :=
  let e1 := ensureSpace y0 30
  let header := "Order " ++ orderId ++ " — Item " ++ toString (i + 1) ++ "/" ++ toString n
  let tr := [V1Placement.header header e1.1]
  let br := if e1.2 then 1 else 0
  let y := e1.1 + 15
  let s2 :=
    match o.customLoad with
    | some data =>
      let ratio := o.customProps.1 / o.customProps.2
      let tempHeight := (pageWidth - 30) / ratio
      let e2 := ensureSpace y tempHeight
      let imgHeight := (pageWidth - 15 * 2) / ratio
      (tr ++ [V1Placement.image data (e2.1 + imgHeight)], e2.1 + imgHeight + 10,
        br + if e2.2 then 1 else 0)
    | none => (tr, y, br)
  let payload := orderId ++ "-" ++ toString (i + 1)
  let e3 := ensureSpace s2.2.1 60
  let tr := s2.1 ++ [V1Placement.barcode payload (e3.1 + 35)]
  let br := s2.2.2 + if e3.2 then 1 else 0
  let y := e3.1 + 35 + 15
  let e4 := ensureSpace y 15
  (tr ++ [V1Placement.separator e4.1], e4.1 + 15, br + if e4.2 then 1 else 0)

/-- State of a V1 run: placements in order, cursor, page count (the
document starts with one page), and the progress pairs reported. -/
structure V1State where
  trace : List V1Placement
  y : ℚ
  pages : Nat
  events : List (Nat × Nat)
deriving DecidableEq

/-- The item loop of V1 `generatePDF` (lines 159-205): report
`(i + 1, n)` at the top of each iteration, then run the item body. -/
def processItemsV1 (orderId : String) (n : Nat) (o : Nat → ItemOracle) (i : Nat)
    (items : List Item) (st : V1State) : V1State :=
  match items with
  | [] => st
  | _item :: rest =>
    let run := v1ItemRun orderId n i (o i) st.y
    processItemsV1 orderId n o (i + 1) rest
      { trace := st.trace ++ run.1
        y := run.2.1
        pages := st.pages + run.2.2
        events := st.events ++ [(i + 1, n)] }

/-- V1 `generatePDF` (pdfGenerator.js lines 149-208). -/
def generatePDFV1 (order : Order) (o : Nat → ItemOracle) : V1State :=
  processItemsV1 order.orderId order.items.length o 0 order.items
    { trace := [], y := baseMargin, pages := 1, events := [] }

/-- State of a combined V1 run: V1 state plus the running
`processedItems` counter. -/
structure V1CombState where
  trace : List V1Placement
  y : ℚ
  pages : Nat
  processed : Nat
  events : List (Nat × Nat)
deriving DecidableEq

/-- The inner item loop of V1 `generateCombinedPDF` (lines 241-288):
increment the running counter, report `(processedItems, totalItems)`,
then run the same item body with the in-order index `i`. -/
def v1CombItems (total : Nat) (o : Nat → ItemOracle) (orderId : String) (n i : Nat)
    (items : List Item) (st : V1CombState) : V1CombState :=
  match items with
  | [] => st
  | _item :: rest =>
    let p := st.processed + 1
    let run := v1ItemRun orderId n i (o st.processed) st.y
    v1CombItems total o orderId n (i + 1) rest
      { trace := st.trace ++ run.1
        y := run.2.1
        pages := st.pages + run.2.2
        processed := p
        events := st.events ++ [(p, total)] }

/-- The order loop of V1 `generateCombinedPDF` (lines 229-289): before
every order after the first, `ensureSpace` 30, a thick separator rule at
the cursor, then advance 20. -/
def v1CombOrders (total : Nat) (o : Nat → ItemOracle) (idx : Nat)
    (orders : List Order) (st : V1CombState) : V1CombState :=
  match orders with
  | [] => st
  | ord :: rest =>
    let st :=
      if 0 < idx then
        let e := ensureSpace st.y 30
        { st with
          trace := st.trace ++ [V1Placement.orderSeparator e.1]
          y := e.1 + 20
          pages := st.pages + (if e.2 then 1 else 0) }
      else st
    v1CombOrders total o (idx + 1) rest
      (v1CombItems total o ord.orderId ord.items.length 0 ord.items st)

/-- V1 `generateCombinedPDF` (pdfGenerator.js lines 211-294):
`totalItems` is the sum of the item counts computed up front and the
processed counter starts at 0. -/
def generateCombinedPDFV1 (orders : List Order) (o : Nat → ItemOracle) : V1CombState :=
  let total := (orders.map (fun ord => ord.items.length)).sum
  v1CombOrders total o 0 orders
    { trace := [], y := baseMargin, pages := 1, processed := 0, events := [] }

/-! ## The legacy generator (part_001, second document) -/

/-- The per-item barcode payload of the legacy generator (part_001 line
397): `order.orderId-item.sku-(i+1)` — the SKU sits between the order id
and the 1-based item index. -/
def barcodeTextLegacy (orderId sku : String) (i : Nat) : String :=
  orderId ++ "-" ++ sku ++ "-" ++ toString (i + 1)

/-! ## Concrete inputs and helper lemmas -/

/-- An item with every optional field absent. -/
def emptyItem : Item := {}

/-- The oracle in which every image load fails (resolves to `null`). -/
def defaultOracle : ItemOracle := {}

/-- The payload of a V1 standard barcode placement, if the placement is
one. -/
def V1Placement.barcodePayload : V1Placement → Option String
  | .barcode p _ => some p
  | _ => none

/-- The payload of a high-fidelity barcode element, if the element is
one. -/
def Element.hqPayload : Element → Option String
  | .hqBarcode p _ _ _ _ => some p
  | _ => none

theorem foldl_draw (d : DocState) (es : List Element) :
    List.foldl DocState.draw d es = { closed := d.closed, cur := d.cur ++ es } := by
  induction es generalizing d with
  | nil => simp
  | cons e rest ih => simp [DocState.draw, ih]

theorem white_thresholdPass_id (img : List Pixel)
    (hwhite : ∀ p ∈ img, p.r = 255 ∧ p.g = 255 ∧ p.b = 255) :
    applyThresholdPass img = img := by
  induction img with
  | nil => rfl
  | cons p t ih =>
    have hp := hwhite p (by simp)
    have ht := ih (fun x hx => hwhite x (by simp [hx]))
    simp only [applyThresholdPass, List.map_cons] at ht ⊢
    rw [ht]
    simp [thresholdPixel, isDarkPixel, threshold, hp.1]

/-! ## Claim C8 -/

/-- C8: for every cursor `y`, needed height `h` and margin `m`,
`ensureSpace` returns `y` unchanged and adds no page when
`y + h ≤ pageHeight - m`, and otherwise adds a page and returns exactly
the top margin `m`. -/
theorem claim_C8_ensureSpace (y h m : ℚ) :
    (y + h ≤ pageHeight - m → ensureSpace y h m = (y, false)) ∧
    (pageHeight - m < y + h → ensureSpace y h m = (m, true)) := by
  constructor
  · intro hle
    simp only [ensureSpace, gt_iff_lt, if_neg (not_lt.mpr hle)]
  · intro hgt
    simp only [ensureSpace, gt_iff_lt, if_pos hgt]

/-- Witness for C8 at concrete inputs: 20 + 30 fits on the page, while
250 + 60 does not and resets to the margin with a page break. -/
theorem claim_C8_witness :
    ensureSpace 20 30 20 = (20, false) ∧ ensureSpace 250 60 20 = (20, true) :=
  ⟨(claim_C8_ensureSpace 20 30 20).1 (by norm_num [pageHeight]),
   (claim_C8_ensureSpace 250 60 20).2 (by norm_num [pageHeight])⟩

/-! ## Claim C5 -/

/-- C5: when dark-pixel suppression is requested the transform composes
the source over the opaque white canvas and then runs the threshold
pass; every composited pixel is opaque (alpha 255), a pixel whose R, G
and B channels are all strictly below the threshold 50 becomes opaque
white (255, 255, 255, 255), and every other pixel is left untouched by
the pass. -/
theorem claim_C5_darkPixelSuppression (q : ℚ) (pixels : List Pixel) (p : Pixel) :
    loadImageAsBase64V1 q true (Except.ok pixels) =
      Except.ok
        { format := "jpeg"
          quality := q
          pixels := (pixels.map compositeOverWhite).map thresholdPixel } ∧
    (compositeOverWhite p).a = 255 ∧
    (isDarkPixel (compositeOverWhite p) = true →
      thresholdPixel (compositeOverWhite p) = { r := 255, g := 255, b := 255, a := 255 }) ∧
    (isDarkPixel (compositeOverWhite p) = false →
      thresholdPixel (compositeOverWhite p) = compositeOverWhite p) := by
  refine ⟨by simp [loadImageAsBase64V1, applyThresholdPass], rfl, fun hd => ?_, fun hd => ?_⟩
  · unfold thresholdPixel
    rw [if_pos hd]
    rfl
  · unfold thresholdPixel
    rw [if_neg (by simp [hd])]

/-- Witness for C5: a black opaque pixel is forced to opaque white, a
red-dominant pixel is untouched. -/
theorem claim_C5_witness :
    thresholdPixel (compositeOverWhite { r := 0, g := 0, b := 0, a := 255 }) =
      { r := 255, g := 255, b := 255, a := 255 } ∧
    thresholdPixel (compositeOverWhite { r := 200, g := 10, b := 10, a := 255 }) =
      compositeOverWhite { r := 200, g := 10, b := 10, a := 255 } :=
  ⟨(claim_C5_darkPixelSuppression 1 [] { r := 0, g := 0, b := 0, a := 255 }).2.2.1 (by decide),
   (claim_C5_darkPixelSuppression 1 [] { r := 200, g := 10, b := 10, a := 255 }).2.2.2 (by decide)⟩

/-! ## Claim C9 -/

/-- C9: on an already-white image the dark-pixel suppression pass is
idempotent — running it twice produces the same pixel data (and hence
the same encoded output) as running it once. -/
theorem claim_C9_thresholdIdempotentOnWhite (img : List Pixel)
    (hwhite : ∀ p ∈ img, p.r = 255 ∧ p.g = 255 ∧ p.b = 255) :
    applyThresholdPass (applyThresholdPass img) = applyThresholdPass img := by
  have h1 := white_thresholdPass_id img hwhite
  rw [h1, h1]

/-- Witness for C9 on a concrete one-pixel white image. -/
theorem claim_C9_witness :
    applyThresholdPass (applyThresholdPass [{ r := 255, g := 255, b := 255, a := 255 }]) =
      applyThresholdPass [{ r := 255, g := 255, b := 255, a := 255 }] :=
  claim_C9_thresholdIdempotentOnWhite [{ r := 255, g := 255, b := 255, a := 255 }] (by decide)

/-! ## Claim C6 -/

/-- C6 counterexample: the custom-image loader of the lighter pipeline
(pdfGenerator.js `safeLoadCustomImage`) encodes JPEG at quality 0.75,
not PNG at quality 1.0 — on a successfully decoded empty image it
returns a JPEG encoding, refuting the claim that every custom-image
loader preset produces quality 1.0 PNG output. -/
theorem claim_C6_counterexample :
    safeLoadCustomImageV1 (Except.ok []) =
      some { format := "jpeg", quality := 3 / 4, pixels := [] } ∧
    "jpeg" ≠ "png" ∧ (3 / 4 : ℚ) ≠ 1 := by
  refine ⟨rfl, by decide, by norm_num⟩

/-- C6 amended: the richer pipeline's custom loader produces quality 1.0
PNG with no dark-pixel suppression and the source pixels untouched; the
lighter pipeline's custom loader produces quality 0.75 JPEG, still with
no dark-pixel suppression (only the white-background composite of the
JPEG encoding path). -/
theorem claim_C6_amended (url : String) (hurl : url ≠ "") (pixels : List Pixel) :
    safeLoadCustomImageV2 (some url) (Except.ok pixels) =
      some { format := "png", quality := 1, pixels := pixels } ∧
    safeLoadCustomImageV1 (Except.ok pixels) =
      some { format := "jpeg", quality := 3 / 4, pixels := pixels.map compositeOverWhite } := by
  constructor
  · simp [safeLoadCustomImageV2, truthyStr, hurl, loadImageAsBase64V2, Except.toOption]
  · simp [safeLoadCustomImageV1, loadImageAsBase64V1, Except.toOption]

/-- Witness for C6 amended at a concrete url and pixel list. -/
theorem claim_C6_witness :
    safeLoadCustomImageV2 (some "https://img") (Except.ok []) =
      some { format := "png", quality := 1, pixels := [] } ∧
    safeLoadCustomImageV1 (Except.ok []) =
      some { format := "jpeg", quality := 3 / 4, pixels := [] } := by
  have h := claim_C6_amended "https://img" (by decide) []
  simpa using h

/-! ## Claim C7 -/

/-- C7 counterexample: the legacy generator (part_001) builds its
per-item standard barcode payload as `orderId-sku-(i+1)`, not
`orderId-(i+1)` — at order "A1", SKU "SKU7", item index 0 the payload is
"A1-SKU7-1". -/
theorem claim_C7_counterexample :
    barcodeTextLegacy "A1" "SKU7" 0 = "A1-SKU7-1" ∧
    barcodeTextLegacy "A1" "SKU7" 0 ≠ "A1" ++ "-" ++ toString (0 + 1) :=
  ⟨by decide, by decide⟩

/-- C7 amended: in the current generators the standard per-item payload
is exactly `orderId-(i+1)` (the single barcode the V1 item body places),
and the details page of the richer pipeline carries exactly one
high-fidelity barcode whose payload is the order identifier alone; the
legacy part_001 generator instead inserts the item SKU between order id
and index. -/
theorem claim_C7_amended (orderId : String) (n i : Nat) (o : ItemOracle) (y0 : ℚ)
    (item : Item) :
    ((v1ItemRun orderId n i o y0).1.filterMap V1Placement.barcodePayload) =
      [orderId ++ "-" ++ toString (i + 1)] ∧
    (detailsElems orderId item).filterMap Element.hqPayload = [orderId] := by
  constructor
  · cases hc : o.customLoad <;> simp [v1ItemRun, hc, V1Placement.barcodePayload]
  · simp [detailsElems, Element.hqPayload]

/-! ## Claim C1 -/

/-- A one-item order whose item carries no image URL at all. -/
def c1Order : Order := { orderId := "A1", items := [emptyItem] }

/-- C1 counterexample: running the richer pipeline on a one-item order
whose item lacks both the custom-image URLs and the garment-preview URL
produces a document of 3 pages of which 2 are blank — the garment page
is emitted unconditionally (`doc.addPage()` runs before the
`shirtImageUrl` test), so the page count for the item is not 1 and blank
pages are emitted. -/
theorem claim_C1_counterexample :
    (generatePDFV2 c1Order (fun _ => defaultOracle)).1.pages.length = 3 ∧
    ((generatePDFV2 c1Order (fun _ => defaultOracle)).1.pages.countP (fun pg => pg == [])) = 2 :=
  ⟨by decide, by decide⟩

/-- C1 amended: for an item lacking both custom-image URLs and the
garment-preview URL, the three-page engine omits the visual page (no
page is added for it) but still emits the garment page as a blank page,
followed by the details page — the item accounts for exactly 2 emitted
pages (one blank, one with details), never 1.  This is the item body
shared by `generatePDF` and `generateCombinedPDF` of part_002. -/
theorem claim_C1_amended (orderId : String) (pos : Nat) (item : Item) (o : ItemOracle)
    (d : DocState) (y : ℚ)
    (hcustom : truthyStr (jsOrStr item.imageUrl item.renderedImageUrl) = false)
    (hshirt : truthyStr item.shirtImageUrl = false) :
    processItemV2 orderId pos item o (d, y) =
      ({ closed := d.closed ++ [d.cur, []], cur := detailsElems orderId item }, 56) := by
  simp [processItemV2, hcustom, hshirt, foldl_draw, DocState.addPage]

/-- Witness for C1 amended: the no-URL item turns a fresh document into
one blank closed page, one blank garment page, and the details page. -/
theorem claim_C1_witness :
    processItemV2 "A1" 0 emptyItem defaultOracle ({ closed := [], cur := [] }, 20) =
      ({ closed := [[], []], cur := detailsElems "A1" emptyItem }, 56) := by
  have h := claim_C1_amended "A1" 0 emptyItem defaultOracle { closed := [], cur := [] } 20 rfl rfl
  simpa using h

/-! ## Claim C10 -/

/-- Recogniser for custom-image elements. -/
def isCustomImage : Element → Bool
  | .customImage .. => true
  | _ => false

/-- Recogniser for high-fidelity barcode elements. -/
def isHqBarcode : Element → Bool
  | .hqBarcode .. => true
  | _ => false

/-- Number of elements satisfying `p` over the whole document. -/
def countElemsP (p : Element → Bool) (d : DocState) : Nat :=
  (d.closed.map (List.countP p)).sum + d.cur.countP p

theorem countElemsP_addPage (p : Element → Bool) (d : DocState) :
    countElemsP p d.addPage = countElemsP p d := by
  simp [countElemsP, DocState.addPage]

theorem countElemsP_draw (p : Element → Bool) (d : DocState) (e : Element) :
    countElemsP p (d.draw e) = countElemsP p d + (if p e then 1 else 0) := by
  simp [countElemsP, DocState.draw, List.countP_append, List.countP_cons]
  split_ifs <;> omega

theorem countElemsP_foldl (p : Element → Bool) (d : DocState) (es : List Element) :
    countElemsP p (List.foldl DocState.draw d es) = countElemsP p d + es.countP p := by
  rw [foldl_draw]
  simp [countElemsP, List.countP_append]
  ring

theorem processItemV2_hqCount (orderId : String) (pos : Nat) (item : Item) (o : ItemOracle)
    (d : DocState) (y : ℚ) :
    countElemsP isHqBarcode (processItemV2 orderId pos item o (d, y)).1 =
      countElemsP isHqBarcode d + 1 := by
  have hdetails : (detailsElems orderId item).countP isHqBarcode = 1 := by
    simp [detailsElems, List.countP_cons, isHqBarcode]
  simp only [processItemV2]
  by_cases h1 : truthyStr (jsOrStr item.imageUrl item.renderedImageUrl) <;>
  by_cases h2 : truthyStr item.shirtImageUrl <;>
  cases hc : o.customLoad <;>
  cases hs : o.shirtLoad <;>
  split_ifs <;>
  simp [h1, h2, hc, hs, countElemsP_addPage, countElemsP_draw, countElemsP_foldl,
    hdetails, isHqBarcode]

theorem processItemV2_customCount_none (orderId : String) (pos : Nat) (item : Item)
    (o : ItemOracle) (d : DocState) (y : ℚ) (hnone : o.customLoad = none) :
    countElemsP isCustomImage (processItemV2 orderId pos item o (d, y)).1 =
      countElemsP isCustomImage d := by
  have hdetails : (detailsElems orderId item).countP isCustomImage = 0 := by
    simp [detailsElems, List.countP_cons, isCustomImage]
  simp only [processItemV2]
  by_cases h1 : truthyStr (jsOrStr item.imageUrl item.renderedImageUrl) <;>
  by_cases h2 : truthyStr item.shirtImageUrl <;>
  cases hs : o.shirtLoad <;>
  split_ifs <;>
  simp [h1, h2, hnone, hs, countElemsP_addPage, countElemsP_draw, countElemsP_foldl,
    hdetails, isCustomImage]

theorem processItemV2_cur (orderId : String) (pos : Nat) (item : Item) (o : ItemOracle)
    (d : DocState) (y : ℚ) :
    (processItemV2 orderId pos item o (d, y)).1.cur = detailsElems orderId item := by
  simp only [processItemV2]
  by_cases h1 : truthyStr (jsOrStr item.imageUrl item.renderedImageUrl) <;>
  by_cases h2 : truthyStr item.shirtImageUrl <;>
  cases hc : o.customLoad <;>
  cases hs : o.shirtLoad <;>
  split_ifs <;>
  simp [h1, h2, hc, hs, foldl_draw, DocState.addPage]

theorem processItemsV2_hqCount (orderId : String) (o : Nat → ItemOracle)
    (items : List Item) :
    ∀ (i : Nat) (st : DocState × ℚ),
      countElemsP isHqBarcode (processItemsV2 orderId o i items st).1 =
        countElemsP isHqBarcode st.1 + items.length := by
  induction items with
  | nil => intro i st; simp [processItemsV2]
  | cons item rest ih =>
    intro i st
    obtain ⟨d, y⟩ := st
    simp only [processItemsV2]
    rw [ih, processItemV2_hqCount]
    simp only [List.length_cons]
    omega

/-- C10: the safe loaders turn every load failure into `null` instead of
propagating it (their embeddings are total functions into `Option`, and
every error outcome maps to `none`); the richer generator treats a
`null` custom-image result as "skip this visual element" — no
custom-image element is added to the document — while the item's details
page is still produced and the run continues, so every item of an order
contributes its details page (exactly one high-fidelity barcode each)
regardless of how many loads fail. -/
theorem claim_C10_nullIsolation :
    (∀ (url : Option String), safeLoadCustomImageV2 url (Except.error ()) = none) ∧
    (∀ (q : ℚ), safeLoadImageV1 q (Except.error ()) = none) ∧
    (safeLoadCustomImageV1 (Except.error ()) = none) ∧
    (∀ (orderId : String) (pos : Nat) (item : Item) (o : ItemOracle) (d : DocState) (y : ℚ),
      o.customLoad = none →
      countElemsP isCustomImage (processItemV2 orderId pos item o (d, y)).1 =
        countElemsP isCustomImage d) ∧
    (∀ (orderId : String) (pos : Nat) (item : Item) (o : ItemOracle) (d : DocState) (y : ℚ),
      (processItemV2 orderId pos item o (d, y)).1.cur = detailsElems orderId item) ∧
    (∀ (order : Order) (o : Nat → ItemOracle),
      countElemsP isHqBarcode (generatePDFV2 order o).1 = order.items.length) := by
  refine ⟨?_, ?_, rfl, ?_, ?_, ?_⟩
  · intro url
    unfold safeLoadCustomImageV2
    split_ifs <;> rfl
  · intro q
    rfl
  · intro orderId pos item o d y hnone
    exact processItemV2_customCount_none orderId pos item o d y hnone
  · intro orderId pos item o d y
    exact processItemV2_cur orderId pos item o d y
  · intro order o
    rw [generatePDFV2, processItemsV2_hqCount]
    simp [countElemsP]

/-- Witness for C10: a failed custom load at a concrete item changes the
custom-image count of a fresh document by nothing. -/
theorem claim_C10_witness :
    countElemsP isCustomImage
      (processItemV2 "A1" 0 emptyItem defaultOracle ({ closed := [], cur := [] }, 20)).1 =
      countElemsP isCustomImage { closed := [], cur := [] } :=
  claim_C10_nullIsolation.2.2.2.1 "A1" 0 emptyItem defaultOracle { closed := [], cur := [] } 20 rfl

/-! ## Claim C3 -/

theorem combItemsV2_processed (total : Nat) (o : Nat → ItemOracle) (orderId : String) :
    ∀ (items : List Item) (st : CombState),
      (items.foldl (combinedStepV2 total o orderId) st).processed =
        st.processed + items.length := by
  intro items
  induction items with
  | nil => intro st; simp
  | cons item rest ih =>
    intro st
    simp only [List.foldl_cons]
    rw [ih]
    simp only [combinedStepV2, List.length_cons]
    omega

theorem combItemsV2_events (total : Nat) (o : Nat → ItemOracle) (orderId : String) :
    ∀ (items : List Item) (st : CombState),
      (items.foldl (combinedStepV2 total o orderId) st).events =
        st.events ++ (List.range items.length).map (fun k => (st.processed + k + 1, total)) := by
  intro items
  induction items with
  | nil => intro st; simp
  | cons item rest ih =>
    intro st
    simp only [List.foldl_cons]
    rw [ih]
    simp only [combinedStepV2, List.length_cons, List.range_succ_eq_map, List.map_cons,
      List.map_map, List.append_assoc, List.singleton_append]
    congr 1
    congr 1
    exact List.map_congr_left (fun a _ => by
      simp only [Function.comp_apply, Prod.mk.injEq]
      refine ⟨by omega, trivial⟩)

theorem combOrdersV2_processed (total : Nat) (o : Nat → ItemOracle) :
    ∀ (orders : List Order) (st : CombState),
      (orders.foldl (processOrderV2 total o) st).processed =
        st.processed + (orders.map (fun ord => ord.items.length)).sum := by
  intro orders
  induction orders with
  | nil => intro st; simp
  | cons ord rest ih =>
    intro st
    simp only [List.foldl_cons]
    rw [ih]
    simp only [processOrderV2, List.map_cons, List.sum_cons]
    rw [combItemsV2_processed]
    omega

theorem combOrdersV2_events (total : Nat) (o : Nat → ItemOracle) :
    ∀ (orders : List Order) (st : CombState),
      (orders.foldl (processOrderV2 total o) st).events =
        st.events ++ (List.range ((orders.map (fun ord => ord.items.length)).sum)).map
          (fun k => (st.processed + k + 1, total)) := by
  intro orders
  induction orders with
  | nil => intro st; simp
  | cons ord rest ih =>
    intro st
    simp only [List.foldl_cons]
    rw [ih]
    simp only [processOrderV2, List.map_cons, List.sum_cons]
    rw [combItemsV2_events, combItemsV2_processed]
    rw [List.range_add, List.map_append, List.map_map, List.append_assoc]
    congr 1
    congr 1
    exact List.map_congr_left (fun a _ => by
      simp only [Function.comp_apply, Prod.mk.injEq]
      refine ⟨by omega, trivial⟩)

theorem v1CombItems_processed (total : Nat) (o : Nat → ItemOracle) (orderId : String) (n : Nat) :
    ∀ (items : List Item) (i : Nat) (st : V1CombState),
      (v1CombItems total o orderId n i items st).processed = st.processed + items.length := by
  intro items
  induction items with
  | nil => intro i st; simp [v1CombItems]
  | cons item rest ih =>
    intro i st
    simp only [v1CombItems]
    rw [ih]
    simp only [List.length_cons]
    omega

theorem v1CombItems_events (total : Nat) (o : Nat → ItemOracle) (orderId : String) (n : Nat) :
    ∀ (items : List Item) (i : Nat) (st : V1CombState),
      (v1CombItems total o orderId n i items st).events =
        st.events ++ (List.range items.length).map (fun k => (st.processed + k + 1, total)) := by
  intro items
  induction items with
  | nil => intro i st; simp [v1CombItems]
  | cons item rest ih =>
    intro i st
    simp only [v1CombItems]
    rw [ih]
    simp only [List.length_cons, List.range_succ_eq_map, List.map_cons,
      List.map_map, List.append_assoc, List.singleton_append]
    congr 1
    congr 1
    exact List.map_congr_left (fun a _ => by
      simp only [Function.comp_apply, Prod.mk.injEq]
      refine ⟨by omega, trivial⟩)

theorem v1CombOrders_processed (total : Nat) (o : Nat → ItemOracle) :
    ∀ (orders : List Order) (idx : Nat) (st : V1CombState),
      (v1CombOrders total o idx orders st).processed =
        st.processed + (orders.map (fun ord => ord.items.length)).sum := by
  intro orders
  induction orders with
  | nil => intro idx st; simp [v1CombOrders]
  | cons ord rest ih =>
    intro idx st
    simp only [v1CombOrders]
    rw [ih]
    split_ifs <;>
      simp only [v1CombItems_processed, List.map_cons, List.sum_cons] <;> omega

theorem v1CombOrders_events (total : Nat) (o : Nat → ItemOracle) :
    ∀ (orders : List Order) (idx : Nat) (st : V1CombState),
      (v1CombOrders total o idx orders st).events =
        st.events ++ (List.range ((orders.map (fun ord => ord.items.length)).sum)).map
          (fun k => (st.processed + k + 1, total)) := by
  intro orders
  induction orders with
  | nil => intro idx st; simp [v1CombOrders]
  | cons ord rest ih =>
    intro idx st
    simp only [v1CombOrders]
    rw [ih]
    split_ifs <;>
    · rw [v1CombItems_events, v1CombItems_processed]
      simp only [List.map_cons, List.sum_cons]
      rw [List.range_add, List.map_append, List.map_map, List.append_assoc]
      congr 1
      congr 1
      exact List.map_congr_left (fun a _ => by
        simp only [Function.comp_apply, Prod.mk.injEq]
        refine ⟨by omega, trivial⟩)

/-- The two orders with item counts [2, 3] used by the spec scenario. -/
def c3Orders : List Order :=
  [ { orderId := "B1", items := [emptyItem, emptyItem] }
  , { orderId := "B2", items := [emptyItem, emptyItem, emptyItem] } ]

/-- C3: in both combined generators the progress callback receives
exactly the pairs (k, totalItems) for k = 1..totalItems in strictly
increasing order, where totalItems is the sum of item counts over all
orders computed up front and the running counter increments once per
item across order boundaries, independent of the per-item load outcomes;
in particular for orders with item counts [2, 3] the sequence is
exactly (1,5), (2,5), (3,5), (4,5), (5,5). -/
theorem claim_C3_progressSequence (orders : List Order) (o : Nat → ItemOracle) :
    ((generateCombinedPDFV2 orders o).events =
      (List.range ((orders.map (fun ord => ord.items.length)).sum)).map
        (fun k => (k + 1, (orders.map (fun ord => ord.items.length)).sum))) ∧
    ((generateCombinedPDFV1 orders o).events =
      (List.range ((orders.map (fun ord => ord.items.length)).sum)).map
        (fun k => (k + 1, (orders.map (fun ord => ord.items.length)).sum))) ∧
    (generateCombinedPDFV2 c3Orders (fun _ => defaultOracle)).events =
      [(1, 5), (2, 5), (3, 5), (4, 5), (5, 5)] ∧
    (generateCombinedPDFV1 c3Orders (fun _ => defaultOracle)).events =
      [(1, 5), (2, 5), (3, 5), (4, 5), (5, 5)] := by
  have h2 : ∀ (os : List Order) (oc : Nat → ItemOracle),
      (generateCombinedPDFV2 os oc).events =
        (List.range ((os.map (fun ord => ord.items.length)).sum)).map
          (fun k => (k + 1, (os.map (fun ord => ord.items.length)).sum)) := by
    intro os oc
    have h := combOrdersV2_events ((os.map (fun ord => ord.items.length)).sum) oc os
      { doc := { closed := [], cur := [] }, y := baseMargin, processed := 0, events := [] }
    simpa [generateCombinedPDFV2] using h
  have h1 : ∀ (os : List Order) (oc : Nat → ItemOracle),
      (generateCombinedPDFV1 os oc).events =
        (List.range ((os.map (fun ord => ord.items.length)).sum)).map
          (fun k => (k + 1, (os.map (fun ord => ord.items.length)).sum)) := by
    intro os oc
    have h := v1CombOrders_events ((os.map (fun ord => ord.items.length)).sum) oc os 0
      { trace := [], y := baseMargin, pages := 1, processed := 0, events := [] }
    simpa [generateCombinedPDFV1] using h
  refine ⟨h2 orders o, h1 orders o, ?_, ?_⟩
  · rw [h2 c3Orders (fun _ => defaultOracle)]
    decide
  · rw [h1 c3Orders (fun _ => defaultOracle)]
    decide

/-! ## Claim C2 -/

/-- An encoded image standing for a successfully loaded custom image. -/
def c2Img : EncodedImage := { format := "png", quality := 1, pixels := [] }

/-- An oracle whose custom image loads successfully with reported pixel
dimensions 100 x 200 (a tall aspect ratio). -/
def c2Oracle : ItemOracle := { customLoad := some c2Img, customProps := (100, 200) }

/-- C2 counterexample: with a loaded image of reported size 100 x 200
the V1 generator computes a full-width placed height of 360mm; ensure
space does break the page first, but immediately after the placement the
cursor sits at 380, far beyond pageHeight - margin = 277 — refuting the
claimed invariant for placements taller than the usable page. -/
theorem claim_C2_counterexample :
    (generatePDFV1 c1Order (fun _ => c2Oracle)).trace =
      [ V1Placement.header "Order A1 — Item 1/1" 20
      , V1Placement.image c2Img 380
      , V1Placement.barcode "A1-1" 55
      , V1Placement.separator 70 ] ∧
    ¬ ((V1Placement.image c2Img 380).yAfter ≤ pageHeight - baseMargin) := by
  constructor
  · norm_num [generatePDFV1, processItemsV1, v1ItemRun, ensureSpace, c1Order, c2Oracle,
      pageWidth, pageHeight, baseMargin, emptyItem]
    exact ⟨by decide, by decide⟩
  · norm_num [V1Placement.yAfter, pageHeight, baseMargin]

set_option maxHeartbeats 2000000 in
theorem v1ItemRun_bounds (orderId : String) (n i : Nat) (o : ItemOracle) (y0 : ℚ)
    (hy : baseMargin ≤ y0)
    (himg : 0 < o.customProps.1 ∧ 0 < o.customProps.2 ∧
      (pageWidth - 30) / (o.customProps.1 / o.customProps.2) ≤ pageHeight - 2 * baseMargin) :
    (∀ p ∈ (v1ItemRun orderId n i o y0).1,
      baseMargin ≤ p.yAfter ∧ p.yAfter ≤ pageHeight - baseMargin) ∧
    baseMargin ≤ (v1ItemRun orderId n i o y0).2.1 := by
  obtain ⟨hw, hh, hfit⟩ := himg
  have hratio : 0 < o.customProps.1 / o.customProps.2 := div_pos hw hh
  rw [pageWidth, pageHeight, baseMargin] at *
  cases hc : o.customLoad
  case none =>
    simp only [v1ItemRun, hc, ensureSpace, pageWidth, pageHeight, baseMargin,
      List.mem_cons, List.not_mem_nil, or_false,
      forall_eq_or_imp, forall_eq, V1Placement.yAfter]
    norm_num
    split_ifs <;> dsimp only at * <;>
      refine ⟨⟨⟨?_, ?_⟩, ⟨?_, ?_⟩, ?_, ?_⟩, ?_⟩ <;> linarith
  case some data =>
    simp only [v1ItemRun, hc, ensureSpace, pageWidth, pageHeight, baseMargin,
      List.mem_cons, List.not_mem_nil, or_false,
      forall_eq_or_imp, forall_eq, V1Placement.yAfter]
    norm_num at hfit ⊢
    have hpos : (0 : ℚ) < 180 / (o.customProps.1 / o.customProps.2) :=
      div_pos (by norm_num) hratio
    split_ifs <;> dsimp only at * <;>
      refine ⟨⟨⟨?_, ?_⟩, ⟨?_, ?_⟩, ⟨?_, ?_⟩, ?_, ?_⟩, ?_⟩ <;> linarith

theorem processItemsV1_bounds (orderId : String) (nn : Nat) (o : Nat → ItemOracle)
    (hprops : ∀ j, 0 < (o j).customProps.1 ∧ 0 < (o j).customProps.2 ∧
      (pageWidth - 30) / ((o j).customProps.1 / (o j).customProps.2) ≤
        pageHeight - 2 * baseMargin) :
    ∀ (items : List Item) (i : Nat) (st : V1State),
      (∀ p ∈ st.trace, baseMargin ≤ p.yAfter ∧ p.yAfter ≤ pageHeight - baseMargin) →
      baseMargin ≤ st.y →
      ∀ p ∈ (processItemsV1 orderId nn o i items st).trace,
        baseMargin ≤ p.yAfter ∧ p.yAfter ≤ pageHeight - baseMargin := by
  intro items
  induction items with
  | nil =>
    intro i st htr hy
    simpa [processItemsV1] using htr
  | cons item rest ih =>
    intro i st htr hy
    simp only [processItemsV1]
    apply ih
    · intro p hp
      dsimp only at hp
      rcases List.mem_append.mp hp with h | h
      · exact htr p h
      · exact (v1ItemRun_bounds orderId nn i (o i) st.y hy (hprops i)).1 p h
    · exact (v1ItemRun_bounds orderId nn i (o i) st.y hy (hprops i)).2

/-- C2 amended: ensureSpace does run before every placement sized to
that placement's footprint, but the claimed invariant — cursor within
[margin, pageHeight - margin] immediately after every placement — holds
only when every placed block fits in the usable page height: provided
each loaded image's reported dimensions are positive with full-width
display height (pageWidth - 30) / ratio at most pageHeight - 2 margins,
every placement of a V1 run leaves the cursor within the band.  Content
taller than that (see the counterexample) overruns the bottom margin
even though a page break was taken first. -/
theorem claim_C2_amended (order : Order) (o : Nat → ItemOracle)
    (hprops : ∀ j, 0 < (o j).customProps.1 ∧ 0 < (o j).customProps.2 ∧
      (pageWidth - 30) / ((o j).customProps.1 / (o j).customProps.2) ≤
        pageHeight - 2 * baseMargin) :
    ∀ p ∈ (generatePDFV1 order o).trace,
      baseMargin ≤ p.yAfter ∧ p.yAfter ≤ pageHeight - baseMargin := by
  apply processItemsV1_bounds order.orderId order.items.length o hprops order.items 0
  · intro p hp
    simp at hp
  · exact le_refl _

/-- Witness for C2 amended: the separator of a one-item run with the
default 800 x 600 dimensions sits within the band. -/
theorem claim_C2_witness :
    baseMargin ≤ (V1Placement.separator 85).yAfter ∧
      (V1Placement.separator 85).yAfter ≤ pageHeight - baseMargin :=
  claim_C2_amended c1Order (fun _ => defaultOracle)
    (fun j => by norm_num [defaultOracle, pageWidth, pageHeight, baseMargin])
    (V1Placement.separator 85)
    (by norm_num [generatePDFV1, processItemsV1, v1ItemRun, ensureSpace, c1Order,
      defaultOracle, pageWidth, pageHeight, baseMargin, emptyItem, List.mem_cons])

/-! ## Claim C4 -/

/-- C4: for every image with positive reported dimensions, the
fill-page ("cover") placement — larger of the two per-axis scale
factors against the page minus 5mm margins, then clamped to the page
with the aspect ratio preserved — yields a result whose larger dimension
is at least min(pageWidth, pageHeight), whose dimensions never exceed
the page on either axis after clamping, and which is centred on both
axes. -/
theorem claim_C4_coverPlacement (w h : ℚ) (hw : 0 < w) (hh : 0 < h) :
    min pageWidth pageHeight ≤ max (placeFillPage w h).w (placeFillPage w h).h ∧
    (placeFillPage w h).w ≤ pageWidth ∧
    (placeFillPage w h).h ≤ pageHeight ∧
    (placeFillPage w h).x = (pageWidth - (placeFillPage w h).w) / 2 ∧
    (placeFillPage w h).y = (pageHeight - (placeFillPage w h).h) / 2 := by
  have hw0 : w ≠ 0 := ne_of_gt hw
  have hh0 : h ≠ 0 := ne_of_gt hh
  simp only [placeFillPage, pageWidth, pageHeight]
  norm_num
  rcases le_total ((200 : ℚ) / w) ((287 : ℚ) / h) with hcase | hcase
  · rw [max_eq_right hcase]
    split_ifs <;>
    · simp only [div_mul_eq_mul_div, ← mul_div_assoc] at *
      simp only [div_le_div_iff₀ hw hh, div_le_div_iff₀ hh hw, div_le_iff₀ hw,
        div_le_iff₀ hh, le_div_iff₀ hw, le_div_iff₀ hh, lt_div_iff₀ hw, lt_div_iff₀ hh,
        div_lt_iff₀ hw, div_lt_iff₀ hh] at *
      refine ⟨?_, ?_, ?_⟩
      · first
        | (left; linarith)
        | (right; linarith)
      · linarith
      · linarith
  · rw [max_eq_left hcase]
    split_ifs <;>
    · simp only [div_mul_eq_mul_div, ← mul_div_assoc] at *
      simp only [div_le_div_iff₀ hw hh, div_le_div_iff₀ hh hw, div_le_iff₀ hw,
        div_le_iff₀ hh, le_div_iff₀ hw, le_div_iff₀ hh, lt_div_iff₀ hw, lt_div_iff₀ hh,
        div_lt_iff₀ hw, div_lt_iff₀ hh] at *
      refine ⟨?_, ?_, ?_⟩
      · first
        | (left; linarith)
        | (right; linarith)
      · linarith
      · linarith

/-- Witness for C4 at the default probe dimensions 800 x 600. -/
theorem claim_C4_witness :
    min pageWidth pageHeight ≤ max (placeFillPage 800 600).w (placeFillPage 800 600).h ∧
    (placeFillPage 800 600).w ≤ pageWidth ∧
    (placeFillPage 800 600).h ≤ pageHeight ∧
    (placeFillPage 800 600).x = (pageWidth - (placeFillPage 800 600).w) / 2 ∧
    (placeFillPage 800 600).y = (pageHeight - (placeFillPage 800 600).h) / 2 :=
  claim_C4_coverPlacement 800 600 (by norm_num) (by norm_num)

end PrintEasy
